import Mathlib

/-!
Shallow embedding of the retry wrapper `safe_generate_content`
(src/VaccinationReminder/bot_interface/app.py, lines 38-61), of the
session-level counter `st.session_state.api_retry_count` (lines 35-36, 53),
and of the fallback logic of `get_vaccine_precautions` (lines 122-158),
together with theorems about their observable behaviour.

The wrapped operation is modelled as a function from the attempt index
(0-based) to `Except String α`: `Except.ok r` models `generate_content`
returning a response, `Except.error e` models a raised exception whose
`str(e)` is `e` (the code only ever inspects the string form of the
exception).  The stream of `random.uniform(0, 1)` draws is modelled as a
function `jitter : Nat -> Rat` indexed by the retry number.
-/

namespace HealthConnect

/-- Boolean test that the character list starts with the second list
(building block for Python substring containment). -/
def startsWithChars : List Char → List Char → Bool
  | _, [] => true
  | [], _ :: _ => false
  | h :: hs, n :: ns => h == n && startsWithChars hs ns

/-- Boolean substring containment on character lists: some suffix of the
first list starts with the second list. -/
def containsChars : List Char → List Char → Bool
  | [], ns => startsWithChars [] ns
  | h :: t, ns => startsWithChars (h :: t) ns || containsChars t ns

/-- Python `need in hay` for strings. -/
def strContains (hay need : String) : Bool :=
  containsChars hay.toList need.toList

/-- Classification performed at line 51 of app.py: `"429" in str(e)`.
An exception is retried exactly when this holds. -/
def retryable (e : String) : Bool := strContains e "429"

/-- Whether one attempt result is an exception the code classifies as
retryable (a returned response is never retried). -/
def retryErrB {α : Type} : Except String α → Bool
  | Except.ok _ => false
  | Except.error e => retryable e

/-- Terminal outcome of `safe_generate_content`: the response is returned
(line 49), the original exception is re-raised (line 59), or the fresh
exhaustion exception of line 61 is raised. -/
inductive Outcome (α : Type) where
  | returned (r : α)
  | raised (e : String)
  | exhausted (msg : String)
  deriving DecidableEq

/-- Observable trace of one invocation of `safe_generate_content`: the
terminal outcome, how many times the wrapped operation was invoked, the
durations passed to `time.sleep` in order, and the number of increments
applied to `st.session_state.api_retry_count`. -/
structure RunTrace (α : Type) where
  outcome : Outcome α
  attempts : Nat
  sleeps : List ℚ
  retries : Nat
  deriving DecidableEq

/-- Message of the exception raised at line 61:
`f"API request failed after {max_retries} retries"`. -/
def exhaustedMessage (max_retries : Int) : String :=
  "API request failed after " ++ toString max_retries ++ " retries"

/-- Loop of `safe_generate_content` (lines 43-59).  `fuel` counts the
iterations still allowed by the `while retry_count < max_retries` guard: at
entry with counter `rc` it equals `(max_retries - rc).toNat`, so the guard
holds exactly when `fuel` is nonzero.  `rc` is the Python `retry_count`,
which also indexes the attempts (it is incremented exactly once per retried
attempt), and `delay` is the mutable `delay` variable.  On a retryable
exception the code increments `retry_count`, sleeps
`delay * 2 ** (retry_count - 1) + random.uniform(0, 1)` and then doubles
`delay` (lines 52-57); any other exception is re-raised (line 59). -/
def sgcGo {α : Type} (op : Nat → Except String α) (jitter : Nat → ℚ)
    (max_retries : Int) : Nat → Nat → ℚ → RunTrace α
  | 0, _, _ =>
    { outcome := Outcome.exhausted (exhaustedMessage max_retries)
      attempts := 0
      sleeps := []
      retries := 0 }
  | fuel + 1, rc, delay =>
    match op rc with
    | Except.ok r =>
      { outcome := Outcome.returned r, attempts := 1, sleeps := [], retries := 0 }
    | Except.error e =>
      if retryable e then
        let wait := delay * 2 ^ ((rc + 1) - 1) + jitter rc
        let rest := sgcGo op jitter max_retries fuel (rc + 1) (delay * 2)
        { outcome := rest.outcome
          attempts := rest.attempts + 1
          sleeps := wait :: rest.sleeps
          retries := rest.retries + 1 }
      else
        { outcome := Outcome.raised e, attempts := 1, sleeps := [], retries := 0 }

/-- `safe_generate_content` (lines 38-61), parameterized by the wrapped
operation, the stream of `random.uniform(0, 1)` draws, `max_retries`
(default 3 at the call sites) and `initial_delay` (default 1).
`max_retries` is an `Int` because Python callers may pass any integer. -/
def safe_generate_content {α : Type} (op : Nat → Except String α)
    (jitter : Nat → ℚ) (max_retries : Int) (initial_delay : ℚ) : RunTrace α :=
  sgcGo op jitter max_retries max_retries.toNat 0 initial_delay

/-- The `fallback_precautions` dictionary of lines 140-156 together with the
`.get(vaccine_name, fallback_precautions["default"])` lookup of line 158. -/
def fallback_precautions (vaccine_name : String) : List String :=
  if vaccine_name = "COVID-19" then
    ["Monitor for allergic reactions for 15-30 minutes after vaccination",
     "Inform your doctor about any history of blood clotting disorders",
     "Stay hydrated and rest after vaccination"]
  else if vaccine_name = "Flu" then
    ["Inform your doctor if you have egg allergies",
     "Avoid vaccination if you currently have a fever",
     "Mild flu-like symptoms are common for 1-2 days after vaccination"]
  else
    ["Consult your doctor before vaccination",
     "Inform about any allergies or medical conditions",
     "Stay at the clinic for observation for 15-30 minutes after vaccination"]

/-- `get_vaccine_precautions` (lines 122-158).  The generative call goes
through `safe_generate_content` with the defaults `max_retries = 3`,
`initial_delay = 1` (line 133); `parse` models stripping the code fence and
`json.loads(response_text)["precautions"]` (third-party parsing, abstracted
as a fallible function).  Any exception raised inside the `try` block —
a re-raised fatal exception, the exhaustion exception, or a parse failure —
is caught by the bare `except` and answered with the hardcoded fallback. -/
def get_vaccine_precautions (vaccine_name : String)
    (op : Nat → Except String String) (jitter : Nat → ℚ)
    (parse : String → Except String (List String)) : List String :=
  match (safe_generate_content op jitter 3 1).outcome with
  | Outcome.returned r =>
    match parse r with
    | Except.ok ps => ps
    | Except.error _ => fallback_precautions vaccine_name
  | Outcome.raised _ => fallback_precautions vaccine_name
  | Outcome.exhausted _ => fallback_precautions vaccine_name

/-- One call site of `safe_generate_content` within a user session. -/
structure Invocation where
  op : Nat → Except String String
  jitter : Nat → ℚ
  max_retries : Int
  initial_delay : ℚ

/-- Trace of one invocation. -/
def Invocation.run (inv : Invocation) : RunTrace String :=
  safe_generate_content inv.op inv.jitter inv.max_retries inv.initial_delay

/-- Number of retryable failures observed while running an invocation: the
attempts actually made whose result was an exception containing "429". -/
def Invocation.observedRetryable (inv : Invocation) : Nat :=
  (List.range inv.run.attempts).countP (fun i => retryErrB (inv.op i))

/-- Value of `st.session_state.api_retry_count` after a sequence of
invocations, starting from `c0` (the key is initialized to 0 at lines
35-36); each invocation adds 1 per retryable failure (line 53). -/
def api_retry_count (invs : List Invocation) (c0 : Nat) : Nat :=
  invs.foldl (fun c inv => c + inv.run.retries) c0

/-- The string "429" is classified retryable (sanity check of the
classification of line 51). -/
theorem retryable_429 : retryable "429" = true := by decide

example : retryable "Error code 429: quota" = true := by decide
example : retryable "auth denied" = false := by decide
example :
    (safe_generate_content (fun _ => (Except.error "429" : Except String String))
      (fun _ => (0 : ℚ)) 3 1).sleeps = [1, 4, 16] := by
  simp [safe_generate_content, sgcGo, retryable_429]
  norm_num
example :
    (safe_generate_content (fun _ => (Except.error "429" : Except String String))
      (fun _ => (0 : ℚ)) 3 1).attempts = 3 := by
  simp [safe_generate_content, sgcGo, retryable_429]

/-- When every attempt yields a retryable exception, the loop consumes all
its fuel: one attempt, one sleep and one counter increment per unit of fuel,
ending in the exhaustion exception of line 61. -/
theorem sgcGo_all_retryable {α : Type} (op : Nat → Except String α)
    (jitter : Nat → ℚ) (m : Int)
    (hall : ∀ i, retryErrB (op i) = true) :
    ∀ (fuel rc : Nat) (delay : ℚ),
      (sgcGo op jitter m fuel rc delay).outcome
          = Outcome.exhausted (exhaustedMessage m) ∧
      (sgcGo op jitter m fuel rc delay).attempts = fuel ∧
      (sgcGo op jitter m fuel rc delay).retries = fuel := by
  intro fuel
  induction fuel with
  | zero => intro rc delay; simp [sgcGo]
  | succ f ih =>
    intro rc delay
    have h := hall rc
    cases hop : op rc with
    | ok r => rw [hop] at h; simp [retryErrB] at h
    | error e =>
      rw [hop] at h
      simp only [retryErrB] at h
      have ihh := ih (rc + 1) (delay * 2)
      simp [sgcGo, hop, h, ihh.1, ihh.2.1, ihh.2.2]

/-- When the first `k` attempts (counted from `rc`) yield retryable
exceptions and attempt `k` succeeds within the remaining fuel, the loop
returns that response after exactly `k + 1` attempts and `k` retries. -/
theorem sgcGo_success {α : Type} (op : Nat → Except String α)
    (jitter : Nat → ℚ) (m : Int) (r : α) :
    ∀ (k fuel rc : Nat) (delay : ℚ), k < fuel →
      (∀ i, i < k → retryErrB (op (rc + i)) = true) →
      op (rc + k) = Except.ok r →
      (sgcGo op jitter m fuel rc delay).outcome = Outcome.returned r ∧
      (sgcGo op jitter m fuel rc delay).attempts = k + 1 ∧
      (sgcGo op jitter m fuel rc delay).retries = k := by
  intro k
  induction k with
  | zero =>
    intro fuel rc delay hk _ hop
    obtain ⟨f, rfl⟩ : ∃ f, fuel = f + 1 := ⟨fuel - 1, by omega⟩
    simp only [Nat.add_zero] at hop
    simp [sgcGo, hop]
  | succ j ih =>
    intro fuel rc delay hk hpre hop
    obtain ⟨f, rfl⟩ : ∃ f, fuel = f + 1 := ⟨fuel - 1, by omega⟩
    have h0 : retryErrB (op rc) = true := by simpa using hpre 0 (by omega)
    cases hoprc : op rc with
    | ok s => rw [hoprc] at h0; simp [retryErrB] at h0
    | error e =>
      rw [hoprc] at h0
      simp only [retryErrB] at h0
      have ihh := ih f (rc + 1) (delay * 2) (by omega)
        (fun i hi => by
          have e1 : rc + 1 + i = rc + (i + 1) := by omega
          rw [e1]
          exact hpre (i + 1) (by omega))
        (by
          have e2 : rc + 1 + j = rc + (j + 1) := by omega
          rw [e2]
          exact hop)
      simp [sgcGo, hoprc, h0, ihh.1, ihh.2.1, ihh.2.2]

/-- When the first `k` attempts (counted from `rc`) yield retryable
exceptions and attempt `k` raises a fatal exception within the remaining
fuel, the loop re-raises that exception after exactly `k + 1` attempts and
`k` retries: no retry budget is spent on the fatal exception itself. -/
theorem sgcGo_fatal {α : Type} (op : Nat → Except String α)
    (jitter : Nat → ℚ) (m : Int) (e : String) (hf : retryable e = false) :
    ∀ (k fuel rc : Nat) (delay : ℚ), k < fuel →
      (∀ i, i < k → retryErrB (op (rc + i)) = true) →
      op (rc + k) = Except.error e →
      (sgcGo op jitter m fuel rc delay).outcome = Outcome.raised e ∧
      (sgcGo op jitter m fuel rc delay).attempts = k + 1 ∧
      (sgcGo op jitter m fuel rc delay).retries = k := by
  intro k
  induction k with
  | zero =>
    intro fuel rc delay hk _ hop
    obtain ⟨f, rfl⟩ : ∃ f, fuel = f + 1 := ⟨fuel - 1, by omega⟩
    simp only [Nat.add_zero] at hop
    simp [sgcGo, hop, hf]
  | succ j ih =>
    intro fuel rc delay hk hpre hop
    obtain ⟨f, rfl⟩ : ∃ f, fuel = f + 1 := ⟨fuel - 1, by omega⟩
    have h0 : retryErrB (op rc) = true := by simpa using hpre 0 (by omega)
    cases hoprc : op rc with
    | ok s => rw [hoprc] at h0; simp [retryErrB] at h0
    | error e2 =>
      rw [hoprc] at h0
      simp only [retryErrB] at h0
      have ihh := ih f (rc + 1) (delay * 2) (by omega)
        (fun i hi => by
          have e1 : rc + 1 + i = rc + (i + 1) := by omega
          rw [e1]
          exact hpre (i + 1) (by omega))
        (by
          have e2 : rc + 1 + j = rc + (j + 1) := by omega
          rw [e2]
          exact hop)
      simp [sgcGo, hoprc, h0, ihh.1, ihh.2.1, ihh.2.2]

/-- If the first `j` attempts (counted from `rc`) yield retryable
exceptions and `j` does not exceed the fuel, at least `j` retry-counter
increments happen. -/
theorem sgcGo_retries_lower {α : Type} (op : Nat → Except String α)
    (jitter : Nat → ℚ) (m : Int) :
    ∀ (fuel rc : Nat) (delay : ℚ) (j : Nat), j ≤ fuel →
      (∀ i, i < j → retryErrB (op (rc + i)) = true) →
      j ≤ (sgcGo op jitter m fuel rc delay).retries := by
  intro fuel
  induction fuel with
  | zero =>
    intro rc delay j hj _
    have h0 : j = 0 := by omega
    subst h0
    exact Nat.zero_le _
  | succ f ih =>
    intro rc delay j hj hpre
    cases j with
    | zero => exact Nat.zero_le _
    | succ j2 =>
      have h0 : retryErrB (op rc) = true := by simpa using hpre 0 (by omega)
      cases hop : op rc with
      | ok r => rw [hop] at h0; simp [retryErrB] at h0
      | error e =>
        rw [hop] at h0
        simp only [retryErrB] at h0
        have ihh := ih (rc + 1) (delay * 2) j2 (by omega)
          (fun i hi => by
            have e1 : rc + 1 + i = rc + (i + 1) := by omega
            rw [e1]
            exact hpre (i + 1) (by omega))
        simp [sgcGo, hop, h0]
        omega

/-- C1: for every retry budget `n >= 1`, an operation that raises a
retryable (rate-limit) exception on every call is attempted exactly `n`
times, after which `safe_generate_content` raises the exhaustion exception
of line 61 — it neither returns a response nor re-raises an individual
cause. -/
theorem C1_always_retryable_exhausts {α : Type} (n : Nat) (hn : 1 ≤ n)
    (op : Nat → Except String α) (jitter : Nat → ℚ) (d : ℚ)
    (hall : ∀ i, retryErrB (op i) = true) :
    (safe_generate_content op jitter (n : Int) d).attempts = n ∧
    (safe_generate_content op jitter (n : Int) d).outcome
        = Outcome.exhausted (exhaustedMessage (n : Int)) ∧
    (∀ r, (safe_generate_content op jitter (n : Int) d).outcome ≠ Outcome.returned r) ∧
    (∀ e, (safe_generate_content op jitter (n : Int) d).outcome ≠ Outcome.raised e) := by
  have hfix : ((n : Int)).toNat = n := by simp
  have h := sgcGo_all_retryable op jitter (n : Int) hall n 0 d
  unfold safe_generate_content
  rw [hfix]
  refine ⟨h.2.1, h.1, ?_, ?_⟩
  · intro r hc; rw [h.1] at hc; exact Outcome.noConfusion hc
  · intro e hc; rw [h.1] at hc; exact Outcome.noConfusion hc

/-- Witness for C1 at `n = 2` and an operation always raising "429". -/
theorem C1_always_retryable_exhausts_witness :
    1 ≤ 2 ∧
    (safe_generate_content (fun _ => (Except.error "429" : Except String String))
        (fun _ => (0 : ℚ)) ((2 : Nat) : Int) 1).attempts = 2 ∧
    (safe_generate_content (fun _ => (Except.error "429" : Except String String))
        (fun _ => (0 : ℚ)) ((2 : Nat) : Int) 1).outcome
        = Outcome.exhausted (exhaustedMessage ((2 : Nat) : Int)) :=
  ⟨by norm_num,
   (C1_always_retryable_exhausts 2 (by norm_num) _ _ 1 (fun i => by decide)).1,
   (C1_always_retryable_exhausts 2 (by norm_num) _ _ 1 (fun i => by decide)).2.1⟩

/-- C5: if the first `k - 1` attempts fail retryably and attempt `k <= n`
succeeds, the operation is attempted exactly `k` times and the successful
response is returned; attempts `k+1 .. n` never happen. -/
theorem C5_success_at_k {α : Type} (op : Nat → Except String α)
    (jitter : Nat → ℚ) (n k : Nat) (d : ℚ) (r : α)
    (hk1 : 1 ≤ k) (hkn : k ≤ n)
    (hpre : ∀ i, i + 1 < k → retryErrB (op i) = true)
    (hop : op (k - 1) = Except.ok r) :
    (safe_generate_content op jitter (n : Int) d).outcome = Outcome.returned r ∧
    (safe_generate_content op jitter (n : Int) d).attempts = k := by
  have hfix : ((n : Int)).toNat = n := by simp
  have h := sgcGo_success op jitter (n : Int) r (k - 1) n 0 d (by omega)
    (fun i hi => by simpa using hpre i (by omega))
    (by simpa using hop)
  unfold safe_generate_content
  rw [hfix]
  exact ⟨h.1, by rw [h.2.1]; omega⟩

/-- Witness for C5: budget 3, retryable failure on attempt 1, success on
attempt 2. -/
theorem C5_success_at_k_witness :
    1 ≤ 2 ∧ 2 ≤ 3 ∧
    ((safe_generate_content
        (fun i => if i = 0 then (Except.error "rate 429" : Except String String)
                  else Except.ok "resp")
        (fun _ => (0 : ℚ)) ((3 : Nat) : Int) 1).outcome = Outcome.returned "resp" ∧
      (safe_generate_content
        (fun i => if i = 0 then (Except.error "rate 429" : Except String String)
                  else Except.ok "resp")
        (fun _ => (0 : ℚ)) ((3 : Nat) : Int) 1).attempts = 2) :=
  ⟨by norm_num, by norm_num,
   C5_success_at_k _ _ 3 2 1 "resp" (by norm_num) (by norm_num)
     (fun i hi => by
       have h0 : i = 0 := by omega
       subst h0
       decide)
     (by rfl)⟩

/-- C4: a fatal (non-rate-limit) exception on the first call means exactly
one attempt, the original exception re-raised unchanged (line 59), no
sleep, and no increment of the retry counter. -/
theorem C4_fatal_first_call {α : Type} (op : Nat → Except String α)
    (jitter : Nat → ℚ) (m : Int) (d : ℚ) (e : String)
    (hm : 1 ≤ m) (hop : op 0 = Except.error e) (hf : retryable e = false) :
    (safe_generate_content op jitter m d).outcome = Outcome.raised e ∧
    (safe_generate_content op jitter m d).attempts = 1 ∧
    (safe_generate_content op jitter m d).sleeps = [] ∧
    (safe_generate_content op jitter m d).retries = 0 := by
  obtain ⟨f, hfuel⟩ : ∃ f, m.toNat = f + 1 := ⟨m.toNat - 1, by omega⟩
  unfold safe_generate_content
  rw [hfuel]
  simp [sgcGo, hop, hf]

/-- Witness for C4 with the fatal exception "invalid key". -/
theorem C4_fatal_first_call_witness :
    1 ≤ (3 : Int) ∧
    ((safe_generate_content (fun _ => (Except.error "invalid key" : Except String String))
        (fun _ => (0 : ℚ)) 3 1).outcome = Outcome.raised "invalid key" ∧
      (safe_generate_content (fun _ => (Except.error "invalid key" : Except String String))
        (fun _ => (0 : ℚ)) 3 1).attempts = 1 ∧
      (safe_generate_content (fun _ => (Except.error "invalid key" : Except String String))
        (fun _ => (0 : ℚ)) 3 1).sleeps = [] ∧
      (safe_generate_content (fun _ => (Except.error "invalid key" : Except String String))
        (fun _ => (0 : ℚ)) 3 1).retries = 0) :=
  ⟨by norm_num,
   C4_fatal_first_call _ _ 3 1 "invalid key" (by norm_num) (by rfl) (by decide)⟩

/-- C3: a failure raised at any attempt `k` (after retryable failures at
the earlier attempts) is retried exactly when the literal "429" is a
substring of its string form (line 51): when the marker is absent the
exception is re-raised at once — after `k + 1` attempts with exactly `k`
retry-counter increments, so no retry budget is spent on the fatal
exception itself — and when the marker is present at least one further
unit of retry budget is consumed on it. -/
theorem C3_rate_limit_classification {α : Type} (op : Nat → Except String α)
    (jitter : Nat → ℚ) (m : Int) (d : ℚ) (k : Nat) (e : String)
    (hk : (k : Int) < m)
    (hpre : ∀ i, i < k → retryErrB (op i) = true)
    (hop : op k = Except.error e) :
    (strContains e "429" = false →
      (safe_generate_content op jitter m d).outcome = Outcome.raised e ∧
      (safe_generate_content op jitter m d).attempts = k + 1 ∧
      (safe_generate_content op jitter m d).retries = k) ∧
    (strContains e "429" = true →
      k + 1 ≤ (safe_generate_content op jitter m d).retries) := by
  constructor
  · intro hf
    have h := sgcGo_fatal op jitter m e (by simpa [retryable] using hf)
      k m.toNat 0 d (by omega)
      (fun i hi => by simpa using hpre i hi)
      (by simpa using hop)
    exact ⟨h.1, h.2.1, h.2.2⟩
  · intro ht
    have h := sgcGo_retries_lower op jitter m m.toNat 0 d (k + 1) (by omega)
      (fun i hi => by
        rcases Nat.lt_or_ge i k with hik | hik
        · simpa using hpre i hik
        · have hik2 : i = k := by omega
          subst hik2
          simp [hop, retryErrB, retryable, ht])
    exact h

/-- Witness for C3 with the fatal exception "403 forbidden" raised at the
first attempt. -/
theorem C3_rate_limit_classification_witness :
    ((0 : Nat) : Int) < 3 ∧
    ((safe_generate_content (fun _ => (Except.error "403 forbidden" : Except String String))
        (fun _ => (0 : ℚ)) 3 1).outcome = Outcome.raised "403 forbidden" ∧
      (safe_generate_content (fun _ => (Except.error "403 forbidden" : Except String String))
        (fun _ => (0 : ℚ)) 3 1).attempts = 0 + 1 ∧
      (safe_generate_content (fun _ => (Except.error "403 forbidden" : Except String String))
        (fun _ => (0 : ℚ)) 3 1).retries = 0) :=
  ⟨by norm_num,
   (C3_rate_limit_classification _ _ 3 1 0 "403 forbidden" (by norm_num)
     (fun i hi => absurd hi (by omega)) (by rfl)).1 (by decide)⟩

/-- C10: with a non-positive `max_retries`, the `while` guard of line 43 is
false at once: the operation is never invoked and the exhaustion exception
is raised immediately with no sleep and no counter increment. -/
theorem C10_nonpositive_budget {α : Type} (op : Nat → Except String α)
    (jitter : Nat → ℚ) (m : Int) (d : ℚ) (hm : m ≤ 0) :
    (safe_generate_content op jitter m d).attempts = 0 ∧
    (safe_generate_content op jitter m d).outcome
        = Outcome.exhausted (exhaustedMessage m) ∧
    (safe_generate_content op jitter m d).sleeps = [] ∧
    (safe_generate_content op jitter m d).retries = 0 := by
  have hfuel : m.toNat = 0 := by omega
  unfold safe_generate_content
  rw [hfuel]
  simp [sgcGo]

/-- Each element of the sleep list: starting from `delay` at counter `rc`,
the `i`-th recorded sleep is `delay * 2 ^ i * 2 ^ (rc + i) + jitter (rc + i)`
— the factor `2 ^ i` comes from `delay *= 2` (line 57) and the factor
`2 ^ (rc + i)` from `2 ** (retry_count - 1)` in the wait formula (line 54). -/
theorem sgcGo_sleeps_elem {α : Type} (op : Nat → Except String α)
    (jitter : Nat → ℚ) (m : Int) :
    ∀ (fuel rc : Nat) (delay : ℚ) (i : Nat),
      i < (sgcGo op jitter m fuel rc delay).sleeps.length →
      (sgcGo op jitter m fuel rc delay).sleeps.get? i
        = some (delay * 2 ^ i * 2 ^ (rc + i) + jitter (rc + i)) := by
  intro fuel
  induction fuel with
  | zero => intro rc delay i hi; simp [sgcGo] at hi
  | succ f ih =>
    intro rc delay i hi
    cases hop : op rc with
    | ok r => simp [sgcGo, hop] at hi
    | error e =>
      cases hre : retryable e with
      | false => simp [sgcGo, hop, hre] at hi
      | true =>
        simp only [sgcGo, hop, hre, if_true] at hi ⊢
        cases i with
        | zero =>
          simp only [List.get?]
          congr 1
          simp only [Nat.add_sub_cancel, Nat.add_zero, pow_zero]
          ring
        | succ j =>
          simp only [List.get?]
          have e1 : rc + (j + 1) = rc + 1 + j := by omega
          rw [e1]
          have hlen : j < (sgcGo op jitter m f (rc + 1) (delay * 2)).sleeps.length := by
            simp only [List.length_cons] at hi
            omega
          rw [ih (rc + 1) (delay * 2) j hlen]
          congr 1
          ring

/-- Full case analysis of the loop: it stops within its fuel, every attempt
before the last one failed retryably, and the run ends at the first
success, at the first fatal exception, or exhausted with the fuel spent. -/
theorem sgcGo_cases {α : Type} (op : Nat → Except String α)
    (jitter : Nat → ℚ) (m : Int) :
    ∀ (fuel rc : Nat) (delay : ℚ),
      (sgcGo op jitter m fuel rc delay).attempts ≤ fuel ∧
      (∀ i, i + 1 < (sgcGo op jitter m fuel rc delay).attempts →
          retryErrB (op (rc + i)) = true) ∧
      ((∃ r, (sgcGo op jitter m fuel rc delay).outcome = Outcome.returned r ∧
          1 ≤ (sgcGo op jitter m fuel rc delay).attempts ∧
          op (rc + ((sgcGo op jitter m fuel rc delay).attempts - 1)) = Except.ok r) ∨
        (∃ e, (sgcGo op jitter m fuel rc delay).outcome = Outcome.raised e ∧
          1 ≤ (sgcGo op jitter m fuel rc delay).attempts ∧
          op (rc + ((sgcGo op jitter m fuel rc delay).attempts - 1)) = Except.error e ∧
          retryable e = false) ∨
        ((sgcGo op jitter m fuel rc delay).outcome
            = Outcome.exhausted (exhaustedMessage m) ∧
          (sgcGo op jitter m fuel rc delay).attempts = fuel ∧
          ∀ i, i < fuel → retryErrB (op (rc + i)) = true)) := by
  intro fuel
  induction fuel with
  | zero =>
    intro rc delay
    refine ⟨by simp [sgcGo], ?_, Or.inr (Or.inr ?_)⟩
    · intro i hi
      simp [sgcGo] at hi
    · refine ⟨by simp [sgcGo], by simp [sgcGo], ?_⟩
      intro i hi
      omega
  | succ f ih =>
    intro rc delay
    cases hop : op rc with
    | ok r =>
      refine ⟨by simp [sgcGo, hop], ?_, Or.inl ⟨r, by simp [sgcGo, hop],
        by simp [sgcGo, hop], by simp [sgcGo, hop]⟩⟩
      intro i hi
      simp [sgcGo, hop] at hi
    | error e =>
      cases hre : retryable e with
      | false =>
        refine ⟨by simp [sgcGo, hop, hre], ?_, Or.inr (Or.inl ⟨e,
          by simp [sgcGo, hop, hre], by simp [sgcGo, hop, hre],
          by simp [sgcGo, hop, hre], hre⟩)⟩
        intro i hi
        simp [sgcGo, hop, hre] at hi
      | true =>
        obtain ⟨ih1, ih2, ih3⟩ := ih (rc + 1) (delay * 2)
        refine ⟨?_, ?_, ?_⟩
        · simp [sgcGo, hop, hre]
          omega
        · intro i hi
          simp [sgcGo, hop, hre] at hi
          cases i with
          | zero => simp [hop, retryErrB, hre]
          | succ j =>
            have e1 : rc + (j + 1) = rc + 1 + j := by omega
            rw [e1]
            exact ih2 j (by omega)
        · rcases ih3 with ⟨r, h1, h2, h3⟩ | ⟨e2, h1, h2, h3, h4⟩ | ⟨h1, h2, h3⟩
          · refine Or.inl ⟨r, ?_, ?_, ?_⟩
            · simp [sgcGo, hop, hre]
              exact h1
            · simp [sgcGo, hop, hre]
            · simp [sgcGo, hop, hre]
              rw [show rc + (sgcGo op jitter m f (rc + 1) (delay * 2)).attempts
                  = rc + 1 + ((sgcGo op jitter m f (rc + 1) (delay * 2)).attempts - 1)
                from by omega]
              exact h3
          · refine Or.inr (Or.inl ⟨e2, ?_, ?_, ?_, h4⟩)
            · simp [sgcGo, hop, hre]
              exact h1
            · simp [sgcGo, hop, hre]
            · simp [sgcGo, hop, hre]
              rw [show rc + (sgcGo op jitter m f (rc + 1) (delay * 2)).attempts
                  = rc + 1 + ((sgcGo op jitter m f (rc + 1) (delay * 2)).attempts - 1)
                from by omega]
              exact h3
          · refine Or.inr (Or.inr ⟨?_, ?_, ?_⟩)
            · simp [sgcGo, hop, hre]
              exact h1
            · simp [sgcGo, hop, hre]
              omega
            · intro i hi
              cases i with
              | zero => simp [hop, retryErrB, hre]
              | succ j =>
                have e1 : rc + (j + 1) = rc + 1 + j := by omega
                rw [e1]
                exact h3 j (by omega)

/-- The retry counter of a run counts exactly the attempts whose result was
a retryable exception. -/
theorem sgcGo_retries_eq_count {α : Type} (op : Nat → Except String α)
    (jitter : Nat → ℚ) (m : Int) :
    ∀ (fuel rc : Nat) (delay : ℚ),
      (sgcGo op jitter m fuel rc delay).retries
        = (List.range' rc (sgcGo op jitter m fuel rc delay).attempts).countP
            (fun i => retryErrB (op i)) := by
  intro fuel
  induction fuel with
  | zero => intro rc delay; simp [sgcGo]
  | succ f ih =>
    intro rc delay
    cases hop : op rc with
    | ok r =>
      simp [sgcGo, hop, List.range'_succ, List.countP_cons, retryErrB]
    | error e =>
      cases hre : retryable e with
      | false =>
        simp [sgcGo, hop, hre, List.range'_succ, List.countP_cons, retryErrB]
      | true =>
        have ihh := ih (rc + 1) (delay * 2)
        simp [sgcGo, hop, hre, List.range'_succ, List.countP_cons, retryErrB, ihh]

/-- The per-run increment of `st.session_state.api_retry_count` equals the
number of retryable failures observed during that run. -/
theorem run_retries_eq_observed (inv : Invocation) :
    inv.run.retries = inv.observedRetryable := by
  show inv.run.retries
      = (List.range inv.run.attempts).countP (fun i => retryErrB (inv.op i))
  rw [List.range_eq_range']
  exact sgcGo_retries_eq_count inv.op inv.jitter inv.max_retries
    inv.max_retries.toNat 0 inv.initial_delay

/-- Witness for C10 at `max_retries = 0`. -/
theorem C10_nonpositive_budget_witness :
    (0 : Int) ≤ 0 ∧
    ((safe_generate_content (fun _ => (Except.ok "resp" : Except String String))
        (fun _ => (0 : ℚ)) 0 1).attempts = 0 ∧
      (safe_generate_content (fun _ => (Except.ok "resp" : Except String String))
        (fun _ => (0 : ℚ)) 0 1).outcome = Outcome.exhausted (exhaustedMessage 0) ∧
      (safe_generate_content (fun _ => (Except.ok "resp" : Except String String))
        (fun _ => (0 : ℚ)) 0 1).sleeps = [] ∧
      (safe_generate_content (fun _ => (Except.ok "resp" : Except String String))
        (fun _ => (0 : ℚ)) 0 1).retries = 0) :=
  ⟨by norm_num,
   C10_nonpositive_budget _ _ 0 1 (by norm_num)⟩

/-- C2 counterexample: the claim's own scenario (`max_retries = 3`,
`initial_delay = 1`, multiplier 2) with the jitter source fixed to 0.  The
sleep recorded after the second retryable failure is 4 seconds, while the
claimed formula `initialDelay * multiplier ^ (i - 1) + jitter` gives 2:
the code doubles `delay` after each retry (line 57) and additionally
multiplies by `2 ** (retry_count - 1)` (line 54). -/
theorem C2_backoff_counterexample :
    (safe_generate_content (fun _ => (Except.error "429" : Except String String))
        (fun _ => (0 : ℚ)) 3 1).sleeps.get? 1 = some 4 ∧
    (1 : ℚ) * 2 ^ (2 - 1) + 0 = 2 ∧ (2 : ℚ) ≠ 4 := by
  refine ⟨?_, by norm_num, by norm_num⟩
  have h : (safe_generate_content (fun _ => (Except.error "429" : Except String String))
      (fun _ => (0 : ℚ)) 3 1).sleeps = [1, 4, 16] := by
    simp [safe_generate_content, sgcGo, retryable_429]
    norm_num
  rw [h]
  rfl

/-- C2 amended: the delay slept after the `i`-th retryable failure and
before attempt `i + 1` equals
`initial_delay * 4 ^ (i - 1) + jitter` (that is,
`initial_delay * multiplier ^ (i - 1) * 2 ^ (i - 1) + jitter`), because the
code both doubles the stored `delay` after every retry and multiplies by
`2 ** (retry_count - 1)` when computing the wait time. -/
theorem C2_backoff_amended {α : Type} (op : Nat → Except String α)
    (jitter : Nat → ℚ) (m : Int) (d : ℚ) (i : Nat) (h1 : 1 ≤ i)
    (hlen : i ≤ (safe_generate_content op jitter m d).sleeps.length) :
    (safe_generate_content op jitter m d).sleeps.get? (i - 1)
      = some (d * 4 ^ (i - 1) + jitter (i - 1)) := by
  show (sgcGo op jitter m m.toNat 0 d).sleeps.get? (i - 1)
      = some (d * 4 ^ (i - 1) + jitter (i - 1))
  have hl : i - 1 < (sgcGo op jitter m m.toNat 0 d).sleeps.length := by
    have h2 : i - 1 < i := by omega
    exact lt_of_lt_of_le h2 hlen
  have h := sgcGo_sleeps_elem op jitter m m.toNat 0 d (i - 1) hl
  simp only [Nat.zero_add] at h
  rw [h]
  congr 1
  rw [show (4 : ℚ) = 2 * 2 from by norm_num, mul_pow]
  ring

/-- Witness for the amended C2 at `i = 2` in the concrete scenario. -/
theorem C2_backoff_amended_witness :
    1 ≤ 2 ∧
    (safe_generate_content (fun _ => (Except.error "429" : Except String String))
        (fun _ => (0 : ℚ)) 3 1).sleeps.get? (2 - 1)
      = some ((1 : ℚ) * 4 ^ (2 - 1) + 0) :=
  ⟨by norm_num,
   C2_backoff_amended _ _ 3 1 2 (by norm_num) (by
     have h : (safe_generate_content (fun _ => (Except.error "429" : Except String String))
         (fun _ => (0 : ℚ)) 3 1).sleeps = [1, 4, 16] := by
       simp [safe_generate_content, sgcGo, retryable_429]
       norm_num
     rw [h]
     norm_num)⟩

/-- C6: for every policy and every operation the invocation terminates with
at most `max_retries` attempts, every attempt before the last failed
retryably, and the run ends at the first success, at the first fatal
exception, or with the exhaustion exception after all attempts failed
retryably. -/
theorem C6_bounded_termination {α : Type} (op : Nat → Except String α)
    (jitter : Nat → ℚ) (m : Int) (d : ℚ) :
    (safe_generate_content op jitter m d).attempts ≤ m.toNat ∧
    (∀ i, i + 1 < (safe_generate_content op jitter m d).attempts →
        retryErrB (op i) = true) ∧
    ((∃ r, (safe_generate_content op jitter m d).outcome = Outcome.returned r ∧
        1 ≤ (safe_generate_content op jitter m d).attempts ∧
        op ((safe_generate_content op jitter m d).attempts - 1) = Except.ok r) ∨
      (∃ e, (safe_generate_content op jitter m d).outcome = Outcome.raised e ∧
        1 ≤ (safe_generate_content op jitter m d).attempts ∧
        op ((safe_generate_content op jitter m d).attempts - 1) = Except.error e ∧
        retryable e = false) ∨
      ((safe_generate_content op jitter m d).outcome
          = Outcome.exhausted (exhaustedMessage m) ∧
        (safe_generate_content op jitter m d).attempts = m.toNat ∧
        ∀ i, i < m.toNat → retryErrB (op i) = true)) := by
  obtain ⟨h1, h2, h3⟩ := sgcGo_cases op jitter m m.toNat 0 d
  refine ⟨h1, fun i hi => by simpa using h2 i hi, ?_⟩
  rcases h3 with ⟨r, a, b, c⟩ | ⟨e, a, b, c, dd⟩ | ⟨a, b, c⟩
  · exact Or.inl ⟨r, a, b, by simpa using c⟩
  · exact Or.inr (Or.inl ⟨e, a, b, by simpa using c, dd⟩)
  · exact Or.inr (Or.inr ⟨a, b, fun i hi => by simpa using c i hi⟩)

/-- C7: across a session, `st.session_state.api_retry_count` grows by
exactly the number of retryable failures observed over all invocations of
`safe_generate_content` — never by fatal failures or successes, which the
count of retryable attempt results excludes by definition. -/
theorem C7_session_counter (invs : List Invocation) (c0 : Nat) :
    api_retry_count invs c0 = c0 + (invs.map Invocation.observedRetryable).sum := by
  induction invs generalizing c0 with
  | nil => simp [api_retry_count]
  | cons inv t ih =>
    have h1 : api_retry_count (inv :: t) c0
        = api_retry_count t (c0 + inv.run.retries) := rfl
    rw [h1, ih, run_retries_eq_observed inv]
    simp only [List.map_cons, List.sum_cons]
    omega

/-- C8 counterexample: the exhaustion exception does not carry the last
retryable cause.  Two runs whose operations fail with different causes
raise identical exhaustion exceptions, and the cause string does not occur
in the exception's message (which mentions only the retry budget). -/
theorem C8_exhaustion_counterexample :
    (safe_generate_content
        (fun _ => (Except.error "quota hit 429 alpha" : Except String String))
        (fun _ => (0 : ℚ)) 2 1).outcome
      = (safe_generate_content
        (fun _ => (Except.error "quota hit 429 beta" : Except String String))
        (fun _ => (0 : ℚ)) 2 1).outcome ∧
    (safe_generate_content
        (fun _ => (Except.error "quota hit 429 alpha" : Except String String))
        (fun _ => (0 : ℚ)) 2 1).outcome = Outcome.exhausted (exhaustedMessage 2) ∧
    strContains (exhaustedMessage 2) "quota hit 429 alpha" = false := by
  have ha : retryable "quota hit 429 alpha" = true := by decide
  have hb : retryable "quota hit 429 beta" = true := by decide
  refine ⟨?_, ?_, by decide⟩
  · simp [safe_generate_content, sgcGo, ha, hb]
  · simp [safe_generate_content, sgcGo, ha]

/-- C8 amended: when the retry budget is exhausted the raised exception is
distinct from every individual cause (it is the fresh exception of line 61,
whose message depends only on `max_retries`), but it does not carry the
last retryable cause. -/
theorem C8_amended_exhaustion_distinct {α : Type} (op : Nat → Except String α)
    (jitter : Nat → ℚ) (m : Int) (d : ℚ)
    (hall : ∀ i, retryErrB (op i) = true) :
    (safe_generate_content op jitter m d).outcome
        = Outcome.exhausted (exhaustedMessage m) ∧
    (∀ e, (safe_generate_content op jitter m d).outcome ≠ Outcome.raised e) ∧
    (∀ r, (safe_generate_content op jitter m d).outcome ≠ Outcome.returned r) := by
  have h2 : (safe_generate_content op jitter m d).outcome
      = Outcome.exhausted (exhaustedMessage m) :=
    (sgcGo_all_retryable op jitter m hall m.toNat 0 d).1
  refine ⟨h2, ?_, ?_⟩
  · intro e hc
    rw [h2] at hc
    exact Outcome.noConfusion hc
  · intro r hc
    rw [h2] at hc
    exact Outcome.noConfusion hc

/-- Witness for the amended C8 with budget 1 and cause "429". -/
theorem C8_amended_exhaustion_distinct_witness :
    (safe_generate_content (fun _ => (Except.error "429" : Except String String))
        (fun _ => (0 : ℚ)) 1 1).outcome = Outcome.exhausted (exhaustedMessage 1) :=
  (C8_amended_exhaustion_distinct _ _ 1 1 (fun i => by decide)).1

/-- C9: whenever the generative call made by `get_vaccine_precautions`
ultimately fails — a fatal exception, retry exhaustion, or an unparseable
response — the function returns the hardcoded fallback list for the vaccine
name (the matching entry or the generic default), which is never empty, so
the caller is never blocked by a raised exception. -/
theorem C9_fallback_on_failure (vaccine_name : String)
    (op : Nat → Except String String) (jitter : Nat → ℚ)
    (parse : String → Except String (List String))
    (hfail : (∀ r, (safe_generate_content op jitter 3 1).outcome
          ≠ Outcome.returned r) ∨
      (∃ r perr, (safe_generate_content op jitter 3 1).outcome
          = Outcome.returned r ∧ parse r = Except.error perr)) :
    get_vaccine_precautions vaccine_name op jitter parse
        = fallback_precautions vaccine_name ∧
    fallback_precautions vaccine_name ≠ [] := by
  constructor
  · unfold get_vaccine_precautions
    split
    next r heq =>
      rcases hfail with hno | ⟨r2, perr, hr2, hp⟩
      · exact absurd heq (hno r)
      · rw [heq] at hr2
        injection hr2 with h3
        subst h3
        simp [hp]
    next e heq => rfl
    next msg heq => rfl
  · unfold fallback_precautions
    split_ifs <;> simp

/-- Witness for C9: a fatally failing generative call for the vaccine name
"Polio" yields the generic default fallback. -/
theorem C9_fallback_on_failure_witness :
    get_vaccine_precautions "Polio"
        (fun _ => (Except.error "boom" : Except String String))
        (fun _ => (0 : ℚ)) (fun _ => Except.error "parse")
      = fallback_precautions "Polio" ∧
    fallback_precautions "Polio" ≠ [] :=
  C9_fallback_on_failure "Polio" _ _ _
    (Or.inl (fun r hc => by
      have hout : (safe_generate_content
          (fun _ => (Except.error "boom" : Except String String))
          (fun _ => (0 : ℚ)) 3 1).outcome = Outcome.raised "boom" := by decide
      rw [hout] at hc
      exact Outcome.noConfusion hc))

end HealthConnect
